import Mathlib

/-!
Verification of the where-is-bol-truck telemetry engine (src/simple_app_fixed.py)
against its natural-language specification.

Shallow embedding conventions:
* Machine floats are modelled as rationals (ℚ); timestamps are epoch seconds as ℚ.
* The transcendental haversine distance (math.sin/cos/atan2/sqrt) is abstracted as
  an explicit function parameter `hav : ℚ → ℚ → ℚ → ℚ → ℚ`; every theorem about
  code that calls haversine_distance quantifies over it, so the results hold for
  the real haversine in particular.
* Redis availability (`redis_client` being configured) is the Boolean `cfg`; a
  raised exception inside a redis call is the Boolean `fail`.  A caught exception
  leaves the corresponding store unchanged.
* Python dict keys that may be absent are modelled with `Option`; `d.get(k, v)`
  becomes `Option.getD`; Python truthiness of a nullable float is `pyTruthy`.
* `int(x)` (truncation toward zero) is `pyInt`.
-/

namespace BolTruck

/-- Python int() on a float: truncation toward zero.  For a reduced rational
num/den this is exactly Int.tdiv num den. -/
def pyInt (q : ℚ) : ℤ := q.num.tdiv q.den

/-- Python truthiness of a nullable number: None and 0 are falsey. -/
def pyTruthy (o : Option ℚ) : Bool :=
  match o with
  | none => false
  | some t => t ≠ 0

/-- One GPS observation: latitude, longitude, epoch-second timestamp
(the dicts appended by append_history_point). -/
structure Fix where
  latitude : ℚ
  longitude : ℚ
  timestamp : ℚ
  deriving DecidableEq, Repr

/-- A latitude/longitude pair (the start_location / end_location dicts). -/
structure Loc where
  latitude : ℚ
  longitude : ℚ
  deriving DecidableEq, Repr

/-- The state of the two persistence backends for one logical key: the Redis
value (none = key absent) and the durable file value (none = file absent). -/
structure BackendState (V : Type) where
  redis : Option V
  file : Option V
  deriving DecidableEq, Repr

/-- Embedding of save_historical_data (src lines 227-241): if redis_client is
configured, try redis.set and return; a caught exception falls through to the
file write; without redis the file is written. -/
def save_historical_data (cfg fail : Bool) (history : List Fix)
    (st : BackendState (List Fix)) : BackendState (List Fix) :=
  if cfg then
    if fail then { st with file := some history }
    else { st with redis := some history }
  else { st with file := some history }

/-- Embedding of save_last_location (src lines 306-320): same shape as
save_historical_data, for the truck:last_location key. -/
def save_last_location (cfg fail : Bool) (v : Fix)
    (st : BackendState Fix) : BackendState Fix :=
  if cfg then
    if fail then { st with file := some v }
    else { st with redis := some v }
  else { st with file := some v }

/-- Embedding of load_historical_data (src lines 204-224): with redis
configured and no exception, a present value is returned; on a miss or an
exception, or without redis, fall through to the file, defaulting to []. -/
def load_historical_data (cfg fail : Bool)
    (st : BackendState (List Fix)) : List Fix :=
  if cfg && !fail then
    match st.redis with
    | some v => v
    | none => st.file.getD []
  else st.file.getD []

/-- Embedding of load_last_location (src lines 284-303): with redis configured
the function returns the redis value or None — the `return None` on line 295 is
inside the `if redis_client:` block, so the file fallback runs only when redis
is NOT configured. -/
def load_last_location (cfg fail : Bool)
    (st : BackendState Fix) : Option Fix :=
  if cfg then
    if fail then none
    else st.redis
  else st.file

/-- Maximum realistic speed in mph (src line 88). -/
def MAX_REALISTIC_SPEED : ℚ := 90

/-- Embedding of is_realistic_speed (src lines 199-201). -/
def is_realistic_speed (speed_mph : ℚ) : Prop :=
  0 ≤ speed_mph ∧ speed_mph ≤ MAX_REALISTIC_SPEED

instance (s : ℚ) : Decidable (is_realistic_speed s) := by
  unfold is_realistic_speed; infer_instance

/-- One per-day record of the legacy daily_stats dict (src lines 646-655 and
669-676).  Keys that can be absent or None are Options; a key absent from the
dict and a key present with value None are both modelled as none. -/
structure DayEntry where
  total_miles : ℚ
  start_time : ℚ
  start_location : Option Loc
  end_location : Option Loc
  first_movement_time : Option ℚ
  last_movement_time : Option ℚ
  total_travel_time : ℚ
  last_update_time : ℚ
  last_movement_update : Option ℚ
  deriving DecidableEq, Repr

/-- The module-level daily_stats dict: ISO date → per-day entry, with the date
modelled as an epoch day index. -/
abbrev StatsMap : Type := ℤ → Option DayEntry

/-- The empty daily_stats dict. -/
def emptyStats : StatsMap := fun _ => none

/-- The local calendar date of an epoch timestamp,
date.fromtimestamp(t).isoformat(), modelled as the epoch day index (the local
midnight offset is abstracted away; all claims quantify within one day). -/
def dayOf (t : ℚ) : ℤ := ⌊t / 86400⌋

/-- Dict insertion daily_stats[day] = e. -/
def updMap (stats : StatsMap) (day : ℤ) (e : DayEntry) : StatsMap :=
  fun d => if d = day then some e else stats d

/-- The fresh entry created by update_daily_stats when today is absent
(src lines 645-655). -/
def freshEntryStats (now : ℚ) : DayEntry :=
  { total_miles := 0, start_time := now, start_location := none,
    end_location := none, first_movement_time := none,
    last_movement_time := none, total_travel_time := 0,
    last_update_time := now, last_movement_update := none }

/-- Embedding of update_daily_stats (src lines 641-662): create today's entry
if absent, then accumulate total_miles and stamp last_update_time,
last_movement_time and end_location.  (The subsequent save_daily_stats
persistence call is modelled separately by save_historical_data-style
functions and does not change the dict.) -/
def update_daily_stats (distance_miles : ℚ) (current_time : ℚ) (lat lng : ℚ)
    (stats : StatsMap) : StatsMap :=
  let today := dayOf current_time
  let e := (stats today).getD (freshEntryStats current_time)
  updMap stats today
    { e with
      total_miles := e.total_miles + distance_miles,
      last_update_time := current_time,
      last_movement_time := some current_time,
      end_location := some ⟨lat, lng⟩ }

/-- Embedding of set_daily_start_location (src lines 664-683): create today's
entry if absent; then, only when start_location is still None, set it together
with first_movement_time.  An existing entry with a non-null start_location is
returned untouched. -/
def set_daily_start_location (lat lng : ℚ) (current_time : ℚ)
    (stats : StatsMap) : StatsMap :=
  let today := dayOf current_time
  match stats today with
  | none =>
      updMap stats today
        { freshEntryStats current_time with
          start_location := some ⟨lat, lng⟩,
          first_movement_time := some current_time }
  | some e =>
      if e.start_location = none then
        updMap stats today
          { e with
            start_location := some ⟨lat, lng⟩,
            first_movement_time := some current_time }
      else stats

/-- Embedding of update_travel_time (src lines 685-698): only acts when today
already has an entry; accrues current_time - last_movement_update into
total_travel_time when the fix is flagged moving AND the last_movement_update
key exists; stamps last_movement_update only when moving.  A non-moving fix
changes nothing (in particular it does NOT clear or reset
last_movement_update). -/
def update_travel_time (current_time : ℚ) (is_moving : Bool)
    (stats : StatsMap) : StatsMap :=
  let today := dayOf current_time
  match stats today with
  | none => stats
  | some e =>
      let e1 :=
        if is_moving then
          match e.last_movement_update with
          | some lmu =>
              { e with total_travel_time :=
                  e.total_travel_time + (current_time - lmu) }
          | none => e
        else e
      let e2 := if is_moving then { e1 with last_movement_update := some current_time }
                else e1
      updMap stats today e2

/-- Implied speed of the segment from fix p to fix c, mph:
distance / (time_diff / 3600) when time_diff > 0, else 0 (src line 917, and
the same formula guarded by seg_dt <= 0 in src lines 1288-1291). -/
def segment_speed (hav : ℚ → ℚ → ℚ → ℚ → ℚ) (p c : Fix) : ℚ :=
  if 0 < c.timestamp - p.timestamp then
    hav p.latitude p.longitude c.latitude c.longitude
      / ((c.timestamp - p.timestamp) / 3600)
  else 0

/-- Embedding of handle_segment_update_for_new_point (src lines 1282-1296):
with at least two history points (the new one already appended), take the
previous point history[-2]; reject non-positive elapsed time; when the implied
speed is realistic and the distance exceeds 0.001 mi, update the legacy daily
stats and the sticky start location and report True; otherwise report False
and leave the stats untouched. -/
def handle_segment_update_for_new_point (hav : ℚ → ℚ → ℚ → ℚ → ℚ)
    (hist : List Fix) (new_lat new_lng current_time : ℚ)
    (stats : StatsMap) : Bool × StatsMap :=
  if hist.length < 2 then (false, stats)
  else
    let prev := hist.getD (hist.length - 2) ⟨0, 0, 0⟩
    let seg_dist := hav prev.latitude prev.longitude new_lat new_lng
    let seg_dt := current_time - prev.timestamp
    if seg_dt ≤ 0 then (false, stats)
    else
      let seg_speed := seg_dist / (seg_dt / 3600)
      if is_realistic_speed seg_speed ∧ seg_dist > 1/1000 then
        (true, set_daily_start_location new_lat new_lng current_time
          (update_daily_stats seg_dist current_time new_lat new_lng stats))
      else (false, stats)

/-- Embedding of compute_segment_moving_flag_for_new_point
(src lines 1298-1308): the last segment counts as moving when its implied
speed is realistic and above 0.5 mph. -/
def compute_segment_moving_flag_for_new_point (hav : ℚ → ℚ → ℚ → ℚ → ℚ)
    (hist : List Fix) (new_lat new_lng current_time : ℚ) : Bool :=
  if hist.length < 2 then false
  else
    let prev := hist.getD (hist.length - 2) ⟨0, 0, 0⟩
    let seg_dt := current_time - prev.timestamp
    if seg_dt ≤ 0 then false
    else
      let seg_dist := hav prev.latitude prev.longitude new_lat new_lng
      let seg_speed := seg_dist / (seg_dt / 3600)
      decide (seg_speed > 1/2 ∧ is_realistic_speed seg_speed)

/-- One iteration of the segment loop of calculate_average_moving_speed
(src lines 907-922): a segment contributes its distance to the numerator and
its elapsed time to the denominator only when its implied speed is realistic
and above 0.5 mph; otherwise the accumulator is unchanged. -/
def avg_moving_step (hav : ℚ → ℚ → ℚ → ℚ → ℚ) (acc : ℚ × ℚ)
    (prev_loc curr_loc : Fix) : ℚ × ℚ :=
  let distance := hav prev_loc.latitude prev_loc.longitude
      curr_loc.latitude curr_loc.longitude
  let time_diff := curr_loc.timestamp - prev_loc.timestamp
  let s := segment_speed hav prev_loc curr_loc
  if is_realistic_speed s ∧ s > 1/2 then (acc.1 + distance, acc.2 + time_diff)
  else acc

/-- The loop of calculate_average_moving_speed over consecutive pairs of the
filtered window. -/
def sum_moving_segments (hav : ℚ → ℚ → ℚ → ℚ → ℚ) :
    (ℚ × ℚ) → List Fix → ℚ × ℚ
  | acc, p :: c :: rest =>
      sum_moving_segments hav (avg_moving_step hav acc p c) (c :: rest)
  | acc, _ => acc

/-- Embedding of calculate_average_moving_speed (src lines 892-928). -/
def calculate_average_moving_speed (hav : ℚ → ℚ → ℚ → ℚ → ℚ)
    (hist : List Fix) (now : ℚ) (minutes : ℚ) : ℚ :=
  if hist.length < 2 then 0
  else
    let recent := hist.filter (fun loc => now - loc.timestamp ≤ minutes * 60)
    if recent.length < 2 then 0
    else
      let acc := sum_moving_segments hav (0, 0) recent
      if 0 < acc.2 then
        let avg := acc.1 / (acc.2 / 3600)
        if is_realistic_speed avg then avg else 0
      else 0

/-- Stable insertion of a fix into a timestamp-sorted list, keeping later
arrivals after equal timestamps (the stability guarantee of Python list.sort
with key=timestamp). -/
def insertByTs (x : Fix) : List Fix → List Fix
  | [] => [x]
  | y :: ys => if y.timestamp ≤ x.timestamp then y :: insertByTs x ys
               else x :: y :: ys

/-- Stable sort of fixes by timestamp (positions.sort with key=timestamp,
src line 934). -/
def sortByTs : List Fix → List Fix
  | [] => []
  | x :: xs => insertByTs x (sortByTs xs)

/-- Embedding of get_positions_in_window (src lines 930-935): keep fixes with
end_time - window_seconds <= timestamp <= end_time, sorted by timestamp. -/
def get_positions_in_window (hist : List Fix)
    (end_time window_seconds : ℚ) : List Fix :=
  let start_time := end_time - window_seconds
  sortByTs (hist.filter fun p =>
    decide (start_time ≤ p.timestamp ∧ p.timestamp ≤ end_time))

/-- Cumulative distance over adjacent pairs of a list of fixes
(the loop of src lines 944-947). -/
def sum_adjacent_distances (hav : ℚ → ℚ → ℚ → ℚ → ℚ) : List Fix → ℚ
  | p :: c :: rest =>
      hav p.latitude p.longitude c.latitude c.longitude
        + sum_adjacent_distances hav (c :: rest)
  | _ => 0

/-- Embedding of compute_window_distance (src lines 937-948). -/
def compute_window_distance (hav : ℚ → ℚ → ℚ → ℚ → ℚ) (hist : List Fix)
    (end_time window_seconds : ℚ) : ℚ :=
  let positions := get_positions_in_window hist end_time window_seconds
  if positions.length < 2 then 0
  else sum_adjacent_distances hav positions

/-- Movement classification returned by get_movement_status. -/
inductive Status where
  | moving
  | stopped
  | unknown
  deriving DecidableEq, Repr

/-- Embedding of get_movement_status (src lines 1002-1041).  With fewer than 2
fixes in the whole history it returns stopped together with the stored
driver stopped_since.  Otherwise: cumulative 5-minute window distance below
0.0001 with fewer than 2 fixes in the window is unknown; a distance strictly
above 0.028 mi is moving (with a backward scan for the movement start);
anything else is stopped (with a backward scan for the stop time). -/
def get_movement_status (hav : ℚ → ℚ → ℚ → ℚ → ℚ) (hist : List Fix)
    (current_time : ℚ) (stopped_since : Option ℚ) : Status × Option ℚ :=
  if hist.length < 2 then (.stopped, stopped_since)
  else
    let total_distance := compute_window_distance hav hist current_time 300
    let classified : Status × Option ℚ :=
      if total_distance > 28/1000 then
        let movement_start :=
          match hist.reverse.find? (fun pos =>
              decide (compute_window_distance hav hist pos.timestamp 300
                ≤ 28/1000)) with
          | some pos => pos.timestamp
          | none => current_time
        (.moving, some movement_start)
      else
        let stop_time :=
          match hist.reverse.find? (fun pos =>
              decide (compute_window_distance hav hist pos.timestamp 300
                > 28/1000)) with
          | some pos => pos.timestamp
          | none => current_time
        (.stopped, some stop_time)
    if total_distance < 1/10000 then
      if (get_positions_in_window hist current_time 300).length < 2 then
        (.unknown, none)
      else classified
    else classified

/-- Embedding of get_stopped_duration (src lines 1043-1069): 0 with fewer than
2 fixes or when the recent 5-minute window shows movement; otherwise
int(now - last_moving_time) from the backward scan, falling back to the time
since the oldest record (note the Python truthiness test on line 1064: a
last_moving_time equal to 0.0 also falls back). -/
def get_stopped_duration (hav : ℚ → ℚ → ℚ → ℚ → ℚ) (hist : List Fix)
    (current_time : ℚ) : ℤ :=
  if hist.length < 2 then 0
  else
    let recent_distance := compute_window_distance hav hist current_time 300
    if recent_distance > 28/1000 then 0
    else
      let last_moving_time : Option ℚ :=
        (hist.reverse.find? (fun pos =>
            decide (compute_window_distance hav hist pos.timestamp 300
              > 28/1000))).map Fix.timestamp
      if pyTruthy last_moving_time then
        pyInt (current_time - last_moving_time.getD 0)
      else
        let oldest_ts := match hist with
          | [] => current_time
          | p :: _ => p.timestamp
        pyInt (current_time - oldest_ts)

/-- The singleton driver record location_data["driver"] (src lines 629-637). -/
structure Driver where
  latitude : ℚ
  longitude : ℚ
  last_updated : ℚ
  speed : ℚ
  stopped_since : Option ℚ
  last_position : Option (ℚ × ℚ)
  deriving DecidableEq, Repr

/-- Embedding of update_driver_state (src lines 1223-1252): write position,
speed and last_position; then manage stopped_since from the windowed
classifier: when classified stopped and the stopped duration is at least 300
seconds, populate stopped_since (only if it is still null) with
current_time - stopped_secs; when stopped less than 300 seconds, or when not
classified stopped, clear it to null. -/
def update_driver_state (hav : ℚ → ℚ → ℚ → ℚ → ℚ) (hist : List Fix)
    (lat lng current_time current_speed : ℚ) (d : Driver) : Driver :=
  let d1 := { d with
    latitude := lat, longitude := lng, last_updated := current_time,
    speed := current_speed, last_position := some (lat, lng) }
  match (get_movement_status hav hist current_time d1.stopped_since).1 with
  | .stopped =>
      let stopped_secs := get_stopped_duration hav hist current_time
      if 300 ≤ stopped_secs then
        if d1.stopped_since = none then
          { d1 with stopped_since := some (current_time - (stopped_secs : ℚ)) }
        else d1
      else { d1 with stopped_since := none }
  | _ => { d1 with stopped_since := none }

/-- Embedding of detect_last_position_movement (src lines 1310-1317): with no
stored last_position the fix counts as moved with distance 0; otherwise moved
iff the distance to the stored position exceeds 0.009 mi. -/
def detect_last_position_movement (hav : ℚ → ℚ → ℚ → ℚ → ℚ) (d : Driver)
    (new_lat new_lng : ℚ) : Bool × ℚ :=
  match d.last_position with
  | none => (true, 0)
  | some (last_lat, last_lng) =>
      let dist := hav last_lat last_lng new_lat new_lng
      (decide (dist > 9/1000), dist)

/-- One value of the old samples_by_minute map: a sample dict whose latitude,
longitude and speed keys may be absent (sample.get on src lines 434-437). -/
structure OldSample where
  latitude : Option ℚ
  longitude : Option ℚ
  speed : Option ℚ
  deriving DecidableEq, Repr

/-- One element of the new minute_locations list (src lines 431-438). -/
structure MinuteEntry where
  minute : ℤ
  timestamp : ℤ
  latitude : Option ℚ
  longitude : Option ℚ
  speed : ℚ
  moving : Bool
  deriving DecidableEq, Repr

/-- The summary sub-dict of the new daily format (src lines 412-417). -/
structure DaySummary where
  first_movement_time : Option ℚ
  last_movement_time : Option ℚ
  moving_time_seconds : ℚ
  stopped_time_seconds : ℚ
  deriving DecidableEq, Repr

/-- A stored daily record, covering both the old schema (samples_by_minute,
total_miles, total_travel_time) and the new schema (minute_locations,
total_distance_miles, total_travel_time_seconds); none models an absent key.
samples_by_minute is an association list in dict insertion order. -/
structure DailyFile where
  date : Option ℤ
  start_time : Option ℚ
  end_time : Option ℚ
  start_location : Option Fix
  end_location : Option Fix
  total_miles : Option ℚ
  total_travel_time : Option ℚ
  total_distance_miles : Option ℚ
  total_travel_time_seconds : Option ℚ
  minute_locations : Option (List MinuteEntry)
  samples_by_minute : Option (List (ℤ × OldSample))
  summary : Option DaySummary
  deriving DecidableEq, Repr

/-- Conversion of one samples_by_minute item to a minute_locations entry
(src lines 422-439), run only when start_time is truthy: the minute index is
int((timestamp - start_of_day) / 60) with start_of_day the midnight of
start_time's day. -/
def migrate_minute_entry (start_time : ℚ) (ts : ℤ) (sample : OldSample) :
    MinuteEntry :=
  let start_of_day : ℚ := 86400 * (dayOf start_time : ℚ)
  { minute := pyInt (((ts : ℚ) - start_of_day) / 60),
    timestamp := ts,
    latitude := sample.latitude,
    longitude := sample.longitude,
    speed := sample.speed.getD 0,
    moving := decide (sample.speed.getD 0 > 1) }

/-- Embedding of migrate_old_daily_format (src lines 400-441): build a fresh
new-schema record; total_distance_miles is old total_miles defaulted to 0 and
total_travel_time_seconds is old total_travel_time defaulted to 0 (the new
record has no total_miles / total_travel_time / samples_by_minute keys);
minute_locations is converted from samples_by_minute when start_time is
truthy, else left empty; the summary is reset. -/
def migrate_old_daily_format (old : DailyFile) : DailyFile :=
  let entries : List MinuteEntry :=
    match old.samples_by_minute with
    | some samples =>
        if pyTruthy old.start_time then
          samples.map fun s =>
            migrate_minute_entry (old.start_time.getD 0) s.1 s.2
        else []
    | none => []
  { date := old.date,
    start_time := old.start_time,
    end_time := old.end_time,
    start_location := old.start_location,
    end_location := old.end_location,
    total_miles := none,
    total_travel_time := none,
    total_distance_miles := some (old.total_miles.getD 0),
    total_travel_time_seconds := some (old.total_travel_time.getD 0),
    minute_locations := some entries,
    samples_by_minute := none,
    summary := some { first_movement_time := none, last_movement_time := none,
                      moving_time_seconds := 0, stopped_time_seconds := 0 } }

/-- The migration step exactly as load_daily_file applies it (src lines
377-380 and 391-394): migrate only a record that still has a
samples_by_minute key and lacks a minute_locations key; anything else is
returned unchanged. -/
def load_daily_file_migration (d : DailyFile) : DailyFile :=
  if d.samples_by_minute.isSome ∧ d.minute_locations = none then
    migrate_old_daily_format d
  else d

/-- Embedding of save_daily_file (src lines 444-452): the function body writes
the durable file unconditionally and never touches Redis, whether or not a
redis client is configured.  (Only create_empty_daily_file, src lines 351-364,
uses the cache-first pattern for the daily key.) -/
def save_daily_file (cfg fail : Bool) (daily_data : DailyFile)
    (st : BackendState DailyFile) : BackendState DailyFile :=
  { st with file := some daily_data }

/-- Embedding of load_daily_stats (src lines 244-264): with redis configured
and no exception, a present value is returned; on a miss or an exception, or
without redis, fall through to the file, defaulting to the empty dict. -/
def load_daily_stats (cfg fail : Bool)
    (st : BackendState StatsMap) : StatsMap :=
  if cfg && !fail then
    match st.redis with
    | some v => v
    | none => st.file.getD emptyStats
  else st.file.getD emptyStats

/-- Embedding of save_daily_stats (src lines 267-281): same cache-first,
file-on-fallback shape as save_historical_data. -/
def save_daily_stats (cfg fail : Bool) (stats : StatsMap)
    (st : BackendState StatsMap) : BackendState StatsMap :=
  if cfg then
    if fail then { st with file := some stats }
    else { st with redis := some stats }
  else { st with file := some stats }

/-! Helper lemmas shared by the claim theorems. -/

lemma insertByTs_length (x : Fix) (l : List Fix) :
    (insertByTs x l).length = l.length + 1 := by
  induction l with
  | nil => rfl
  | cons y ys ih =>
      unfold insertByTs
      split <;> simp [ih]

lemma sortByTs_length (l : List Fix) : (sortByTs l).length = l.length := by
  induction l with
  | nil => rfl
  | cons x xs ih => simp [sortByTs, insertByTs_length, ih]

lemma window_le_hist_length (hist : List Fix) (end_time window_seconds : ℚ) :
    (get_positions_in_window hist end_time window_seconds).length
      ≤ hist.length := by
  unfold get_positions_in_window
  simpa [sortByTs_length] using
    List.length_filter_le
      (fun p : Fix =>
        decide (end_time - window_seconds ≤ p.timestamp
          ∧ p.timestamp ≤ end_time)) hist

lemma compute_window_distance_sparse (hav : ℚ → ℚ → ℚ → ℚ → ℚ)
    (hist : List Fix) (end_time window_seconds : ℚ)
    (h : (get_positions_in_window hist end_time window_seconds).length < 2) :
    compute_window_distance hav hist end_time window_seconds = 0 := by
  unfold compute_window_distance
  simp [h]

/-- C4 counterexample: with a single fix in the whole history (hence fewer
than 2 fixes in the 5-minute window), get_movement_status returns stopped
(together with the stored stopped_since), not unknown as the claim states. -/
theorem movement_status_single_fix_is_stopped :
    get_movement_status (fun _ _ _ _ => 0)
      [{ latitude := 0, longitude := 0, timestamp := 0 }] 60 none
      = (Status.stopped, none) := by
  norm_num [get_movement_status]

/-- C4 (amended): when the full history holds at least 2 fixes but the
trailing 5-minute window holds fewer than 2, get_movement_status returns
unknown; a total history of fewer than 2 fixes instead returns stopped. -/
theorem movement_status_unknown_on_sparse_window (hav : ℚ → ℚ → ℚ → ℚ → ℚ)
    (hist : List Fix) (now : ℚ) (ss : Option ℚ)
    (hlen : 2 ≤ hist.length)
    (hwin : (get_positions_in_window hist now 300).length < 2) :
    get_movement_status hav hist now ss = (Status.unknown, none) := by
  have h2 : ¬ hist.length < 2 := by omega
  have hd : compute_window_distance hav hist now 300 = 0 :=
    compute_window_distance_sparse hav hist now 300 hwin
  unfold get_movement_status
  rw [if_neg h2]
  simp only [hd, hwin]
  norm_num

/-- C4 witness: two fixes far in the past with current time 10000 leave the
5-minute window empty, and the status is unknown. -/
theorem movement_status_unknown_on_sparse_window_witness :
    get_movement_status (fun _ _ _ _ => 0)
      [{ latitude := 0, longitude := 0, timestamp := 0 },
       { latitude := 0, longitude := 0, timestamp := 1 }] 10000 none
      = (Status.unknown, none) :=
  movement_status_unknown_on_sparse_window _ _ 10000 none
    (by norm_num)
    (by norm_num [get_positions_in_window, sortByTs, insertByTs, List.filter])

/-- C6: with at least 2 fixes in the trailing 5-minute window, a cumulative
windowed displacement of exactly 0.028 mi classifies as stopped (the
comparison is strict) and any displacement strictly above 0.028 mi classifies
as moving. -/
theorem movement_threshold_strict (hav : ℚ → ℚ → ℚ → ℚ → ℚ)
    (hist : List Fix) (now : ℚ) (ss : Option ℚ)
    (hwin : 2 ≤ (get_positions_in_window hist now 300).length) :
    (compute_window_distance hav hist now 300 = 28/1000 →
      (get_movement_status hav hist now ss).1 = Status.stopped) ∧
    (28/1000 < compute_window_distance hav hist now 300 →
      (get_movement_status hav hist now ss).1 = Status.moving) := by
  have hle : 2 ≤ hist.length :=
    le_trans hwin (window_le_hist_length hist now 300)
  have h2 : ¬ hist.length < 2 := by omega
  have hw2 : ¬ (get_positions_in_window hist now 300).length < 2 := by omega
  constructor
  · intro hD
    unfold get_movement_status
    rw [if_neg h2]
    simp only [hD]
    norm_num
  · intro hD
    have hsmall : ¬ compute_window_distance hav hist now 300 < 1/10000 := by
      intro hc
      nlinarith
    have hmov : compute_window_distance hav hist now 300 > 28/1000 := hD
    unfold get_movement_status
    rw [if_neg h2]
    simp only [if_neg hsmall, if_pos hmov]

/-- C6 witness: three fixes at times 0, 60, 120 with a distance function that
returns 0.014 mi per segment give a window displacement of exactly 0.028 mi
and status stopped; with 0.015 mi per segment the displacement is 0.030 mi
and the status is moving. -/
theorem movement_threshold_strict_witness :
    (get_movement_status (fun _ _ _ _ => 14/1000)
      [{ latitude := 0, longitude := 0, timestamp := 0 },
       { latitude := 1, longitude := 1, timestamp := 60 },
       { latitude := 2, longitude := 2, timestamp := 120 }] 120 none).1
      = Status.stopped ∧
    (get_movement_status (fun _ _ _ _ => 15/1000)
      [{ latitude := 0, longitude := 0, timestamp := 0 },
       { latitude := 1, longitude := 1, timestamp := 60 },
       { latitude := 2, longitude := 2, timestamp := 120 }] 120 none).1
      = Status.moving :=
  ⟨(movement_threshold_strict _ _ 120 none
      (by norm_num [get_positions_in_window, sortByTs, insertByTs,
        List.filter])).1
      (by norm_num [compute_window_distance, get_positions_in_window,
        sortByTs, insertByTs, sum_adjacent_distances, List.filter]),
   (movement_threshold_strict _ _ 120 none
      (by norm_num [get_positions_in_window, sortByTs, insertByTs,
        List.filter])).2
      (by norm_num [compute_window_distance, get_positions_in_window,
        sortByTs, insertByTs, sum_adjacent_distances, List.filter])⟩

/-- C10: with no stored last_position (the very first fix after startup),
per-fix movement detection reports moved with distance 0. -/
theorem first_fix_counts_as_movement (hav : ℚ → ℚ → ℚ → ℚ → ℚ) (d : Driver)
    (new_lat new_lng : ℚ) (h : d.last_position = none) :
    detect_last_position_movement hav d new_lat new_lng = (true, 0) := by
  unfold detect_last_position_movement
  rw [h]

/-- C7: a consecutive pair of fixes whose implied speed exceeds
MAX_REALISTIC_SPEED contributes to neither the numerator (distance) nor the
denominator (time) of calculate_average_moving_speed, and ingesting the
second fix through handle_segment_update_for_new_point leaves the legacy
daily stats untouched and reports no update. -/
theorem unrealistic_speed_segment_excluded (hav : ℚ → ℚ → ℚ → ℚ → ℚ)
    (p c : Fix) (h : MAX_REALISTIC_SPEED < segment_speed hav p c) :
    (∀ acc : ℚ × ℚ, avg_moving_step hav acc p c = acc) ∧
    (∀ (hist : List Fix) (stats : StatsMap),
      hist.getD (hist.length - 2) ⟨0, 0, 0⟩ = p →
      handle_segment_update_for_new_point hav hist c.latitude c.longitude
        c.timestamp stats = (false, stats)) := by
  have hnr : ¬ is_realistic_speed (segment_speed hav p c) := by
    intro hr
    exact absurd h (not_lt.mpr hr.2)
  constructor
  · intro acc
    unfold avg_moving_step
    rw [if_neg]
    intro hcontra
    exact hnr hcontra.1
  · intro hist stats hprev
    unfold handle_segment_update_for_new_point
    by_cases h2 : hist.length < 2
    · rw [if_pos h2]
    · rw [if_neg h2]
      simp only [hprev]
      by_cases hdt : c.timestamp - p.timestamp ≤ 0
      · rw [if_pos hdt]
      · rw [if_neg hdt]
        have hseg : hav p.latitude p.longitude c.latitude c.longitude
            / ((c.timestamp - p.timestamp) / 3600)
            = segment_speed hav p c := by
          unfold segment_speed
          rw [if_pos (by linarith [not_le.mp hdt])]
        rw [hseg, if_neg]
        intro hcontra
        exact hnr hcontra.1

/-- C7 witness: a constant distance of 10/3 mi over a 60-second segment
implies 200 mph; the average-speed accumulator is unchanged and the legacy
daily stats are untouched. -/
theorem unrealistic_speed_segment_excluded_witness :
    avg_moving_step (fun _ _ _ _ => 10/3) (0, 0)
      { latitude := 0, longitude := 0, timestamp := 0 }
      { latitude := 1, longitude := 1, timestamp := 60 } = (0, 0) ∧
    handle_segment_update_for_new_point (fun _ _ _ _ => 10/3)
      [{ latitude := 0, longitude := 0, timestamp := 0 },
       { latitude := 1, longitude := 1, timestamp := 60 }]
      1 1 60 emptyStats = (false, emptyStats) :=
  ⟨(unrealistic_speed_segment_excluded (fun _ _ _ _ => 10/3)
      { latitude := 0, longitude := 0, timestamp := 0 }
      { latitude := 1, longitude := 1, timestamp := 60 }
      (by norm_num [segment_speed, MAX_REALISTIC_SPEED])).1 (0, 0),
   (unrealistic_speed_segment_excluded (fun _ _ _ _ => 10/3)
      { latitude := 0, longitude := 0, timestamp := 0 }
      { latitude := 1, longitude := 1, timestamp := 60 }
      (by norm_num [segment_speed, MAX_REALISTIC_SPEED])).2
      [{ latitude := 0, longitude := 0, timestamp := 0 },
       { latitude := 1, longitude := 1, timestamp := 60 }] emptyStats rfl⟩

/-- C8: update_driver_state manages stopped_since exactly as claimed: while
classified stopped with a measured stopped duration below 300 seconds it
stays null; at 300 seconds or more it is populated (only when still null)
with current_time minus the measured stopped duration, i.e. the start of the
stop window, not the ingest time; an already-populated value is retained; and
a moving classification clears it. -/
theorem stopped_since_discipline (hav : ℚ → ℚ → ℚ → ℚ → ℚ) (hist : List Fix)
    (lat lng now speed : ℚ) (d : Driver) :
    ((get_movement_status hav hist now d.stopped_since).1 = Status.stopped →
      get_stopped_duration hav hist now < 300 →
      (update_driver_state hav hist lat lng now speed d).stopped_since
        = none) ∧
    ((get_movement_status hav hist now d.stopped_since).1 = Status.stopped →
      300 ≤ get_stopped_duration hav hist now →
      d.stopped_since = none →
      (update_driver_state hav hist lat lng now speed d).stopped_since
        = some (now - (get_stopped_duration hav hist now : ℚ))) ∧
    (∀ t0 : ℚ,
      (get_movement_status hav hist now d.stopped_since).1 = Status.stopped →
      300 ≤ get_stopped_duration hav hist now →
      d.stopped_since = some t0 →
      (update_driver_state hav hist lat lng now speed d).stopped_since
        = some t0) ∧
    ((get_movement_status hav hist now d.stopped_since).1 = Status.moving →
      (update_driver_state hav hist lat lng now speed d).stopped_since
        = none) := by
  refine ⟨?_, ?_, ?_, ?_⟩
  · intro hs hdur
    unfold update_driver_state
    simp only [hs]
    rw [if_neg (by omega)]
  · intro hs hdur hnone
    unfold update_driver_state
    simp only [hs]
    rw [if_pos hdur, if_pos hnone]
  · intro t0 hs hdur hsome
    unfold update_driver_state
    simp only [hs]
    rw [if_pos hdur, if_neg (by simp [hsome])]
    exact hsome
  · intro hs
    unfold update_driver_state
    simp only [hs]

/-- C8 witness: with a distance function returning 1 mi per segment, three
fixes inside the window classify as moving, and an ingest clears a previously
populated stopped_since. -/
theorem stopped_since_discipline_witness :
    (update_driver_state (fun _ _ _ _ => 1)
      [{ latitude := 0, longitude := 0, timestamp := 0 },
       { latitude := 1, longitude := 1, timestamp := 60 },
       { latitude := 2, longitude := 2, timestamp := 120 }]
      3 4 120 30
      { latitude := 9, longitude := 9, last_updated := 0, speed := 0,
        stopped_since := some 5, last_position := none }).stopped_since
      = none :=
  (stopped_since_discipline _ _ 3 4 120 30 _).2.2.2
    (by norm_num [get_movement_status, compute_window_distance,
      get_positions_in_window, sortByTs, insertByTs, sum_adjacent_distances,
      List.filter, List.find?, List.reverse, List.reverseAux])

/-- A concrete daily record used in closed statements about the daily
persistence path. -/
def sampleDailyFile : DailyFile :=
  { date := some 0, start_time := some 60, end_time := none,
    start_location := none, end_location := none,
    total_miles := none, total_travel_time := none,
    total_distance_miles := some 0, total_travel_time_seconds := some 0,
    minute_locations := some [], samples_by_minute := none,
    summary := none }

/-- C2 counterexample: with the cache configured and the cache write
succeeding, save_daily_file still writes the durable file store (and never
writes the cache), contradicting the claim that the durable store is left
untouched for the daily key. -/
theorem daily_set_writes_durable_despite_cache :
    (save_daily_file true false sampleDailyFile
      { redis := none, file := none }).file = some sampleDailyFile ∧
    (save_daily_file true false sampleDailyFile
      { redis := none, file := none }).redis = none :=
  ⟨rfl, rfl⟩

/-- C2 (amended): for the location_history, daily_stats and last_location
keys the set operation writes only the cache when the cache is configured and
the write succeeds, and writes the durable file exactly when the cache is
unconfigured or the cache write raises; the daily key deviates:
save_daily_file always writes the durable file and never the cache. -/
theorem set_operations_backend_frame :
    (∀ (v : List Fix) (st : BackendState (List Fix)),
      (save_historical_data true false v st).file = st.file ∧
      (save_historical_data true false v st).redis = some v ∧
      (save_historical_data true true v st).file = some v ∧
      (save_historical_data true true v st).redis = st.redis ∧
      (save_historical_data false false v st).file = some v) ∧
    (∀ (v : StatsMap) (st : BackendState StatsMap),
      (save_daily_stats true false v st).file = st.file ∧
      (save_daily_stats true false v st).redis = some v ∧
      (save_daily_stats true true v st).file = some v ∧
      (save_daily_stats true true v st).redis = st.redis ∧
      (save_daily_stats false false v st).file = some v) ∧
    (∀ (v : Fix) (st : BackendState Fix),
      (save_last_location true false v st).file = st.file ∧
      (save_last_location true false v st).redis = some v ∧
      (save_last_location true true v st).file = some v ∧
      (save_last_location true true v st).redis = st.redis ∧
      (save_last_location false false v st).file = some v) ∧
    (∀ (cfg fail : Bool) (v : DailyFile) (st : BackendState DailyFile),
      (save_daily_file cfg fail v st).file = some v ∧
      (save_daily_file cfg fail v st).redis = st.redis) := by
  refine ⟨fun v st => ?_, fun v st => ?_, fun v st => ?_,
    fun cfg fail v st => ?_⟩ <;>
    simp [save_historical_data, save_daily_stats, save_last_location,
      save_daily_file]

/-- C3 counterexample: with the cache configured, a cache miss on the
last_location key returns absent without consulting the durable file store,
even though the file holds a value — contradicting the claimed read-through
fallback for every key. -/
theorem last_location_cache_miss_skips_file :
    load_last_location true false
      { redis := none,
        file := some { latitude := 1, longitude := 2, timestamp := 3 } }
      = none :=
  rfl

/-- C3 (amended): the get operations never raise (they are total functions
returning a default on any failure); location_history and daily_stats fall
back to the durable file store on a cache miss, a cache exception, or an
unconfigured cache; last_location falls back to the file ONLY when the cache
is unconfigured — with the cache configured, both a miss and an exception
yield absent without a file read. -/
theorem get_operations_fallback :
    (∀ (st : BackendState (List Fix)),
      (st.redis = none → load_historical_data true false st
        = st.file.getD []) ∧
      (load_historical_data true true st = st.file.getD []) ∧
      (∀ fl : Bool, load_historical_data false fl st = st.file.getD [])) ∧
    (∀ (st : BackendState StatsMap),
      (st.redis = none → load_daily_stats true false st
        = st.file.getD emptyStats) ∧
      (load_daily_stats true true st = st.file.getD emptyStats) ∧
      (∀ fl : Bool, load_daily_stats false fl st
        = st.file.getD emptyStats)) ∧
    (∀ (st : BackendState Fix),
      (st.redis = none → load_last_location true false st = none) ∧
      (load_last_location true true st = none) ∧
      (∀ fl : Bool, load_last_location false fl st = st.file)) := by
  refine ⟨fun st => ⟨fun h => ?_, ?_, fun fl => ?_⟩,
    fun st => ⟨fun h => ?_, ?_, fun fl => ?_⟩,
    fun st => ⟨fun h => ?_, ?_, fun fl => ?_⟩⟩ <;>
    simp_all [load_historical_data, load_daily_stats, load_last_location,
      emptyStats]

/-- C3 witness: a cache miss on location_history falls back to the stored
file value, and last_location reads the file when the cache is unconfigured. -/
theorem get_operations_fallback_witness :
    load_historical_data true false
      { redis := none,
        file := some [{ latitude := 1, longitude := 2, timestamp := 3 }] }
      = [{ latitude := 1, longitude := 2, timestamp := 3 }] ∧
    load_last_location false false
      { redis := none,
        file := some { latitude := 1, longitude := 2, timestamp := 3 } }
      = some { latitude := 1, longitude := 2, timestamp := 3 } :=
  ⟨(get_operations_fallback.1 _).1 rfl,
   (get_operations_fallback.2.2 _).2.2 false⟩

lemma updMap_self (stats : StatsMap) (day : ℤ) (e : DayEntry)
    (h : stats day = some e) : updMap stats day e = stats := by
  funext d
  by_cases hd : d = day
  · subst hd; simp [updMap, h]
  · simp [updMap, hd]

lemma dayOf_eq_zero (t : ℚ) (h1 : 0 ≤ t) (h2 : t < 86400) : dayOf t = 0 := by
  unfold dayOf
  refine Int.floor_eq_zero_iff.mpr (Set.mem_Ico.mpr ⟨?_, ?_⟩)
  · exact div_nonneg h1 (by norm_num)
  · exact (div_lt_one (by norm_num)).mpr h2

lemma update_travel_time_none (now : ℚ) (m : Bool) (stats : StatsMap)
    (h : stats (dayOf now) = none) :
    update_travel_time now m stats = stats := by
  simp [update_travel_time, h]

lemma update_travel_time_not_moving (now : ℚ) (stats : StatsMap) :
    update_travel_time now false stats = stats := by
  cases h : stats (dayOf now) with
  | none => exact update_travel_time_none now false stats h
  | some e =>
      have h2 : update_travel_time now false stats
          = updMap stats (dayOf now) e := by
        simp [update_travel_time, h]
      rw [h2, updMap_self stats (dayOf now) e h]

lemma update_travel_time_some_moving (now t0 : ℚ) (stats : StatsMap)
    (e : DayEntry) (he : stats (dayOf now) = some e)
    (ht0 : e.last_movement_update = some t0) :
    update_travel_time now true stats = updMap stats (dayOf now)
      { e with
        total_travel_time := e.total_travel_time + (now - t0),
        last_movement_update := some now } := by
  simp [update_travel_time, he, ht0]

lemma update_travel_time_moving_no_base (now : ℚ) (stats : StatsMap)
    (e : DayEntry) (he : stats (dayOf now) = some e)
    (ht0 : e.last_movement_update = none) :
    update_travel_time now true stats = updMap stats (dayOf now)
      { e with last_movement_update := some now } := by
  simp [update_travel_time, he, ht0]

/-- A day entry whose travel-time base is set at time 0, used in closed
statements about update_travel_time. -/
def travelCexEntry : DayEntry :=
  { total_miles := 0, start_time := 0, start_location := none,
    end_location := none, first_movement_time := none,
    last_movement_time := none, total_travel_time := 0,
    last_update_time := 0, last_movement_update := some 0 }

/-- A daily_stats dict holding travelCexEntry for day 0. -/
def travelCexStats : StatsMap := updMap emptyStats 0 travelCexEntry

/-- C1 counterexample: ingest sequence moving at t=60, NOT moving at t=120,
moving at t=180.  After the moving fix at t=60 the accrued total is 60
seconds; the moving fix at t=180, arriving right after a non-moving fix,
credits a further 120 seconds (180 - 60, the base set at the last moving
fix), so the 60-second stopped gap 60..120 is retroactively credited instead
of the accrual base being reset by the non-moving fix. -/
theorem stopped_gap_credited_to_travel_time :
    ((update_travel_time 120 false
        (update_travel_time 60 true travelCexStats)) 0).map
      DayEntry.total_travel_time = some 60 ∧
    ((update_travel_time 180 true (update_travel_time 120 false
        (update_travel_time 60 true travelCexStats))) 0).map
      DayEntry.total_travel_time = some 180 := by
  have d60 : dayOf 60 = 0 := dayOf_eq_zero 60 (by norm_num) (by norm_num)
  have d120 : dayOf 120 = 0 := dayOf_eq_zero 120 (by norm_num) (by norm_num)
  have d180 : dayOf 180 = 0 := dayOf_eq_zero 180 (by norm_num) (by norm_num)
  constructor <;>
    norm_num [update_travel_time, updMap, travelCexStats, travelCexEntry,
      emptyStats, d60, d120, d180]

/-- C1 (amended): update_travel_time accrues current_time minus
last_movement_update into the day's total exactly at fixes flagged moving
(and only when the base key exists), and stamps the base only at moving
fixes; a non-moving fix leaves the stats — including the accrual base —
completely unchanged, so the next moving fix credits the whole interval back
to the previous moving fix, stopped gap included. -/
theorem update_travel_time_accrual (now : ℚ) (m : Bool) (stats : StatsMap) :
    (m = false → update_travel_time now m stats = stats) ∧
    (stats (dayOf now) = none → update_travel_time now m stats = stats) ∧
    (∀ e t0, stats (dayOf now) = some e →
      e.last_movement_update = some t0 → m = true →
      update_travel_time now m stats = updMap stats (dayOf now)
        { e with
          total_travel_time := e.total_travel_time + (now - t0),
          last_movement_update := some now }) ∧
    (∀ e, stats (dayOf now) = some e →
      e.last_movement_update = none → m = true →
      update_travel_time now m stats = updMap stats (dayOf now)
        { e with last_movement_update := some now }) := by
  refine ⟨?_, ?_, ?_, ?_⟩
  · intro hm
    subst hm
    exact update_travel_time_not_moving now stats
  · intro h
    exact update_travel_time_none now m stats h
  · intro e t0 he ht0 hm
    subst hm
    exact update_travel_time_some_moving now t0 stats e he ht0
  · intro e he ht0 hm
    subst hm
    exact update_travel_time_moving_no_base now stats e he ht0

/-- C1 witness: a moving fix at t=60 over travelCexStats (base at t=0)
accrues 60 seconds and moves the base to 60. -/
theorem update_travel_time_accrual_witness :
    update_travel_time 60 true travelCexStats
      = updMap travelCexStats (dayOf 60)
          { travelCexEntry with
            total_travel_time := travelCexEntry.total_travel_time + (60 - 0),
            last_movement_update := some 60 } :=
  (update_travel_time_accrual 60 true travelCexStats).2.2.1 travelCexEntry 0
    (by rw [dayOf_eq_zero 60 (by norm_num) (by norm_num)]
        simp [travelCexStats, updMap]) rfl rfl

/-- The sticky-start-location invariant for one day: the day has an entry
whose start_location is the given non-null location and whose
first_movement_time is the given value. -/
def StickyAt (stats : StatsMap) (day : ℤ) (l : Loc) (fm : Option ℚ) : Prop :=
  ∃ e, stats day = some e ∧ e.start_location = some l
    ∧ e.first_movement_time = fm

lemma update_daily_stats_at (dist t lat lng : ℚ) (stats : StatsMap)
    (e : DayEntry) (he : stats (dayOf t) = some e) :
    update_daily_stats dist t lat lng stats = updMap stats (dayOf t)
      { e with
        total_miles := e.total_miles + dist,
        last_update_time := t,
        last_movement_time := some t,
        end_location := some ⟨lat, lng⟩ } := by
  simp [update_daily_stats, he]

lemma sticky_update_daily_stats (dist t lat lng : ℚ) (stats : StatsMap)
    (day : ℤ) (l : Loc) (fm : Option ℚ) (h : StickyAt stats day l fm) :
    StickyAt (update_daily_stats dist t lat lng stats) day l fm := by
  obtain ⟨e, he, hl, hf⟩ := h
  by_cases hd : day = dayOf t
  · subst hd
    rw [update_daily_stats_at dist t lat lng stats e he]
    exact ⟨{ e with
        total_miles := e.total_miles + dist,
        last_update_time := t,
        last_movement_time := some t,
        end_location := some ⟨lat, lng⟩ },
      by simp [updMap], hl, hf⟩
  · refine ⟨e, ?_, hl, hf⟩
    simp [update_daily_stats, updMap, hd, he]

lemma sticky_set_daily_start_location (lat lng t : ℚ) (stats : StatsMap)
    (day : ℤ) (l : Loc) (fm : Option ℚ) (h : StickyAt stats day l fm) :
    StickyAt (set_daily_start_location lat lng t stats) day l fm := by
  obtain ⟨e, he, hl, hf⟩ := h
  by_cases hd : day = dayOf t
  · subst hd
    have h2 : set_daily_start_location lat lng t stats = stats := by
      simp [set_daily_start_location, he, hl]
    rw [h2]
    exact ⟨e, he, hl, hf⟩
  · cases hm : stats (dayOf t) with
    | none =>
        refine ⟨e, ?_, hl, hf⟩
        simp [set_daily_start_location, hm, updMap, hd, he]
    | some e0 =>
        by_cases h0 : e0.start_location = none
        · refine ⟨e, ?_, hl, hf⟩
          simp [set_daily_start_location, hm, h0, updMap, hd, he]
        · refine ⟨e, ?_, hl, hf⟩
          simp [set_daily_start_location, hm, h0, updMap, hd, he]

lemma sticky_update_travel_time (t : ℚ) (m : Bool) (stats : StatsMap)
    (day : ℤ) (l : Loc) (fm : Option ℚ) (h : StickyAt stats day l fm) :
    StickyAt (update_travel_time t m stats) day l fm := by
  obtain ⟨e, he, hl, hf⟩ := h
  cases hm : stats (dayOf t) with
  | none =>
      rw [update_travel_time_none t m stats hm]
      exact ⟨e, he, hl, hf⟩
  | some e0 =>
      cases m with
      | false =>
          rw [update_travel_time_not_moving t stats]
          exact ⟨e, he, hl, hf⟩
      | true =>
          by_cases hd : day = dayOf t
          · subst hd
            have hee : e0 = e := Option.some.inj (hm.symm.trans he)
            subst hee
            cases h0 : e0.last_movement_update with
            | some t0 =>
                rw [update_travel_time_some_moving t t0 stats e0 hm h0]
                exact ⟨{ e0 with
                    total_travel_time := e0.total_travel_time + (t - t0),
                    last_movement_update := some t },
                  by simp [updMap], hl, hf⟩
            | none =>
                rw [update_travel_time_moving_no_base t stats e0 hm h0]
                exact ⟨{ e0 with last_movement_update := some t },
                  by simp [updMap], hl, hf⟩
          · cases h0 : e0.last_movement_update with
            | some t0 =>
                rw [update_travel_time_some_moving t t0 stats e0 hm h0]
                refine ⟨e, ?_, hl, hf⟩
                simp [updMap, hd, he]
            | none =>
                rw [update_travel_time_moving_no_base t stats e0 hm h0]
                refine ⟨e, ?_, hl, hf⟩
                simp [updMap, hd, he]

lemma sticky_handle_segment (hav : ℚ → ℚ → ℚ → ℚ → ℚ) (hist : List Fix)
    (nlat nlng t : ℚ) (stats : StatsMap) (day : ℤ) (l : Loc)
    (fm : Option ℚ) (h : StickyAt stats day l fm) :
    StickyAt
      (handle_segment_update_for_new_point hav hist nlat nlng t stats).2
      day l fm := by
  unfold handle_segment_update_for_new_point
  dsimp only
  split_ifs with h1 h2 h3
  · exact h
  · exact h
  · exact sticky_set_daily_start_location _ _ _ _ _ _ _
      (sticky_update_daily_stats _ _ _ _ _ _ _ _ h)
  · exact h

/-- One ingest's inputs as they reach the daily-stats code path. -/
structure IngestInput where
  hist : List Fix
  new_lat : ℚ
  new_lng : ℚ
  current_time : ℚ

/-- One ingest's effect on the legacy daily_stats dict, in pipeline order
(process_fetched_location, src lines 108 and 113):
handle_segment_update_for_new_point, then update_travel_time with the
segment moving flag. -/
def daily_stats_ingest (hav : ℚ → ℚ → ℚ → ℚ → ℚ) (stats : StatsMap)
    (inp : IngestInput) : StatsMap :=
  update_travel_time inp.current_time
    (compute_segment_moving_flag_for_new_point hav inp.hist inp.new_lat
      inp.new_lng inp.current_time)
    (handle_segment_update_for_new_point hav inp.hist inp.new_lat inp.new_lng
      inp.current_time stats).2

/-- C9: the legacy daily start location is sticky — once a day's entry holds
a non-null start_location, no sequence of subsequent ingests changes it, and
the first_movement_time written alongside it is likewise never rewritten. -/
theorem daily_start_location_sticky (hav : ℚ → ℚ → ℚ → ℚ → ℚ)
    (inputs : List IngestInput) (stats : StatsMap) (day : ℤ) (l : Loc)
    (fm : Option ℚ) (h : StickyAt stats day l fm) :
    StickyAt (inputs.foldl (daily_stats_ingest hav) stats) day l fm := by
  induction inputs generalizing stats with
  | nil => exact h
  | cons inp rest ih =>
      refine ih _ ?_
      unfold daily_stats_ingest
      exact sticky_update_travel_time _ _ _ _ _ _
        (sticky_handle_segment _ _ _ _ _ _ _ _ _ h)

/-- A concrete day entry with a populated sticky start location. -/
def stickyWitnessEntry : DayEntry :=
  { total_miles := 3, start_time := 0,
    start_location := some { latitude := 1, longitude := 2 },
    end_location := none, first_movement_time := some 5,
    last_movement_time := none, total_travel_time := 0,
    last_update_time := 0, last_movement_update := none }

/-- C9 witness: a stats dict with start_location (1,2) and
first_movement_time 5 for day 0 keeps both through an ingest of a realistic
moving segment at t=60. -/
theorem daily_start_location_sticky_witness :
    StickyAt
      (([{ hist := [{ latitude := 0, longitude := 0, timestamp := 0 },
                    { latitude := 1, longitude := 1, timestamp := 60 }],
           new_lat := 1, new_lng := 1, current_time := 60 }] :
          List IngestInput).foldl
        (daily_stats_ingest (fun _ _ _ _ => 1))
        (updMap emptyStats 0 stickyWitnessEntry))
      0 { latitude := 1, longitude := 2 } (some 5) :=
  daily_start_location_sticky (fun _ _ _ _ => 1) _ _ 0
    { latitude := 1, longitude := 2 } (some 5)
    ⟨stickyWitnessEntry, by simp [updMap], rfl, rfl⟩

/-- A concrete old-format daily record: one sample keyed by timestamp 86460,
5 total miles, 7 seconds of travel time, start_time 86400. -/
def oldFormatSample : DailyFile :=
  { date := none, start_time := some 86400, end_time := none,
    start_location := none, end_location := none,
    total_miles := some 5, total_travel_time := some 7,
    total_distance_miles := none, total_travel_time_seconds := none,
    minute_locations := none,
    samples_by_minute := some
      [(86460, { latitude := some 1, longitude := some 2, speed := some 3 })],
    summary := none }

/-- C5 counterexample: the raw old-to-new migration is NOT idempotent — a
second application reads the now-absent total_miles key as 0, so
total_distance_miles drops from some 5 to some 0 (and the converted minute
entries are dropped as well). -/
theorem migrate_twice_differs :
    (migrate_old_daily_format oldFormatSample).total_distance_miles
      = some 5 ∧
    (migrate_old_daily_format
        (migrate_old_daily_format oldFormatSample)).total_distance_miles
      = some 0 ∧
    migrate_old_daily_format (migrate_old_daily_format oldFormatSample)
      ≠ migrate_old_daily_format oldFormatSample := by
  refine ⟨rfl, rfl, fun hc => ?_⟩
  have h2 := congrArg DailyFile.total_distance_miles hc
  have h5 : (migrate_old_daily_format oldFormatSample).total_distance_miles
      = some 5 := rfl
  have h0 : (migrate_old_daily_format
      (migrate_old_daily_format oldFormatSample)).total_distance_miles
      = some 0 := rfl
  rw [h5, h0] at h2
  have h25 : (0 : ℚ) = 5 := Option.some.inj h2
  norm_num at h25

/-- C5 (amended): the migration as load_daily_file actually applies it —
guarded to records that still carry samples_by_minute and lack
minute_locations — is idempotent, because a migrated record never matches
the guard again; the raw unguarded migration is not. -/
theorem load_daily_file_migration_idempotent (d : DailyFile) :
    load_daily_file_migration (load_daily_file_migration d)
      = load_daily_file_migration d := by
  by_cases hg : d.samples_by_minute.isSome ∧ d.minute_locations = none
  · simp only [load_daily_file_migration, if_pos hg]
    rw [if_neg]
    intro hc
    simp [migrate_old_daily_format] at hc
  · simp only [load_daily_file_migration, if_neg hg]

/-- C10 witness: the startup driver record has last_position none and the
first fix is reported as movement with distance 0. -/
theorem first_fix_counts_as_movement_witness :
    detect_last_position_movement (fun _ _ _ _ => 0)
      { latitude := 0, longitude := 0, last_updated := 0, speed := 0,
        stopped_since := none, last_position := none } 1 2 = (true, 0) :=
  first_fix_counts_as_movement _ _ 1 2 rfl

end BolTruck
